import Mathlib

/-
Formal model of src/src/python/AIPropositionAgent.py.

The agent is a single Python class whose four public methods
(define_proposition, gather_evidence, evaluate_proposition,
conclude_proposition) run ordered sequences of checkpoints over a mutable
instance state.  We embed the instance state as an explicit record
threaded through each method, exceptions as an explicit error sum, and the
logging side effects as an event trace returned alongside the result.

The helper methods of the class (clarity scoring, falsifiability check,
fact gathering, ...) are the pluggable policy evaluators of the design;
each public method is therefore parameterised by an Evaluators record, and
builtinEvals instantiates that record with the placeholder bodies that the
source file ships (lines 281-397).  Opaque Python payload values (lists,
dicts flowing through evidence records) are modeled as rendered strings;
Python floats are modeled as rationals, which is exact for every constant
the source uses (0.7, 0.8, 0.85, 0.9).
-/

namespace StardogPOC

/-- A confidence-score dictionary: label to score, insertion ordered,
mirroring a Python dict with string keys. -/
abbrev Scores := List (String × Rat)

/-- Python dict assignment d[k] = v: overwrite in place if the key exists,
otherwise append at the end (Python dicts preserve insertion order). -/
def dictInsert : Scores → String → Rat → Scores
  | [], k, v => [(k, v)]
  | (k0, v0) :: rest, k, v =>
    if k0 = k then (k, v) :: rest else (k0, v0) :: dictInsert rest k v

/-- Python substring test needle in hay. -/
def pyInStr (needle hay : String) : Bool :=
  decide (needle.data <:+: hay.data)

/-- One scan step of Python str.replace: replace every non-overlapping
occurrence of old, left to right.  The fuel is the length of the scanned
list; each step consumes at least one character, so it never runs out. -/
def replaceAux (old rep : List Char) : Nat → List Char → List Char
  | _, [] => []
  | 0, l => l
  | fuel + 1, c :: cs =>
    if old.isPrefixOf (c :: cs) then
      rep ++ replaceAux old rep fuel ((c :: cs).drop old.length)
    else
      c :: replaceAux old rep fuel cs

/-- Python str.replace(old, rep) for a non-empty old. -/
def pyReplace (s old rep : String) : String :=
  ⟨replaceAux old.data rep.data s.data.length s.data⟩

/-- Python truthiness of an optional string (None and "" are falsy). -/
def pyTruthy : Option String → Bool
  | none => false
  | some s => !s.isEmpty

/-- The rendering of an absent optional string, as an opaque payload. -/
def optStr : Option String → String
  | none => "None"
  | some s => s

/-- The rendering of an optional rational, as an opaque payload. -/
def optRat : Option Rat → String
  | none => "None"
  | some q => toString q

/-- Rendering of the empty Python list, the default payload for a missing
initial_data key. -/
def emptyListStr : String := toString ([] : List String)

/-- self.expert_data: a dict with name, credentials and reliability keys,
each possibly absent ({} at construction). -/
structure ExpertData where
  name : Option String := none
  credentials : Option String := none
  reliability : Option Rat := none
deriving Repr, DecidableEq

/-- Rendering of an expert_data dict as an opaque evidence payload. -/
def expertStr (e : ExpertData) : String :=
  "name: " ++ optStr e.name ++ ", credentials: " ++ optStr e.credentials ++
    ", reliability: " ++ optRat e.reliability

/-- One entry of self.evidence: a dict with source and data keys
(source line 93 and the nine analogous appends). -/
structure EvidenceRecord where
  source : String
  data : String
deriving Repr, DecidableEq

/-- The mutable instance state of AIPropositionAgent (source lines 11-18).
The defaults are exactly the constructor assignments. -/
structure AgentState where
  premises : List String := []
  hypothesis : String := ""
  statement : String := ""
  evidence : List EvidenceRecord := []
  expert_data : ExpertData := {}
  group_feedback : String := emptyListStr
  confidence_scores : Scores := []
deriving Repr, DecidableEq

/-- A freshly constructed agent. -/
def initState : AgentState := {}

/-- One observable event of a method run: a log_step call (source lines
20-22; the ambient timestamp that log_step attaches to every line is not
modeled), or the entry marker of a public stage method, used to count
stage invocations. -/
inductive Event
  | log (step : String) (output : String)
  | enterGather
  | enterEvaluate
  | scheduleMonitoring
deriving Repr, DecidableEq

/-- Equality of Except values is decidable componentwise; the kernel can
evaluate it, which keeps concrete runs checkable by decide. -/
instance {e a : Type} [DecidableEq e] [DecidableEq a] : DecidableEq (Except e a)
  | .error x, .error y =>
    if h : x = y then .isTrue (by rw [h]) else .isFalse (by simp [h])
  | .error _, .ok _ => .isFalse (by simp)
  | .ok _, .error _ => .isFalse (by simp)
  | .ok x, .ok y =>
    if h : x = y then .isTrue (by rw [h]) else .isFalse (by simp [h])

/-- A raised Python exception: ValueError with its message, or the
AttributeError raised when a missing method is looked up on self. -/
inductive Err
  | valueError (msg : String)
  | attributeError (attr : String)
deriving Repr, DecidableEq

/-- A checkpoint evaluator result: the single boolean field the caller
gates on (valid, consistent, coherent, ...) plus the rendering of the full
dict, which is what the log line interpolates. -/
structure CheckResult where
  ok : Bool
  detail : String
deriving Repr, DecidableEq

/-- Result of analyze_data: the new_patterns flag and new_sources value
the caller reads (source lines 195-196), plus the rendering logged. -/
structure AnalysisResult where
  new_patterns : Bool
  new_sources : Option String
  detail : String
deriving Repr, DecidableEq

/-- The dict returned by evaluate_proposition (source line 220). -/
structure EvaluationResult where
  statement : String
  confidence : Scores
deriving Repr, DecidableEq

/-- The dict returned by conclude_proposition: either truth: False with a
reason (lines 242-275) or truth: True with statement and confidence
(line 279). -/
structure ConcludeResult where
  truth : Bool
  statement : Option String := none
  confidence : Option Scores := none
  reason : Option String := none
deriving Repr, DecidableEq

/-- The dict returned by define_proposition (source line 86). -/
structure DefineResult where
  statement : String
  premises : List String
deriving Repr, DecidableEq

/-- The input_data / context dict consumed by the public methods, with one
field per key the source reads; a missing key is none (input_data.get). -/
structure InputData where
  context : Option String := none
  initial_premises : Option (List String) := none
  phenomenon : Option String := none
  effect : Option String := none
  use_case : Option String := none
  domain : Option String := none
  initial_data : Option String := none
  target : Option String := none
  data_sources : Option String := none
  controls : Option String := none
  time_sensitive : Option Bool := none
  group : Option String := none
deriving Repr, DecidableEq

/-- The pluggable policy functions, one per helper method of the class
(source lines 281-397).  Signatures mirror the call sites; helpers whose
placeholder bodies read self also receive the agent state. -/
structure Evaluators where
  evaluate_clarity : String → Rat
  is_falsifiable : String → Bool
  context_match : String → Option String → Bool
  clarify_statement : String → String
  is_assessable : String → Bool
  is_actionable : String → Bool
  prepare_for_group : String → String
  find_expert : Option String → ExpertData
  simulate_gut : String → String
  observe_phenomena : Option String → String
  record_data : String → String
  build_arguments : AgentState → List String → String → String
  list_beliefs : String → String
  gather_facts : String → Option String → String
  apply_scenario : String → String → String
  conduct_experiment : String → Option String → String
  is_outdated : String → Option Bool → Bool
  refresh_data : Option String → String
  review_credentials : ExpertData → Rat
  consult_group : String → Option String → String
  cross_check_logic : String → List EvidenceRecord → CheckResult
  test_consistency : List String → List EvidenceRecord → CheckResult
  check_fit : String → List EvidenceRecord → CheckResult
  compare_facts : String → List EvidenceRecord → CheckResult
  verify_repeatability : List EvidenceRecord → CheckResult
  analyze_data : List EvidenceRecord → AnalysisResult
  update_bayesian : AnalysisResult → Rat
  evaluate_outcomes : AnalysisResult → CheckResult
  evaluate_testimony : ExpertData → CheckResult
  gauge_consensus : String → CheckResult
  conclude_rationally : EvaluationResult → CheckResult
  accept_belief : String → EvaluationResult → CheckResult
  conclude_alignment : String → EvaluationResult → CheckResult
  accept_empirically : EvaluationResult → CheckResult
  refine_hypothesis : AgentState → EvaluationResult → String
  deem_practical : EvaluationResult → CheckResult
  trust_authority : ExpertData → CheckResult
  consider_consensus : EvaluationResult → CheckResult

/-- The placeholder helper bodies the source ships (lines 281-397). -/
def builtinEvals : Evaluators where
  evaluate_clarity _ := mkRat 8 10
  is_falsifiable h := pyInStr "causes" h
  context_match _ _ := true
  clarify_statement s := pyReplace s "causes" "leads to"
  is_assessable s := decide (s.length > 10)
  is_actionable s := pyInStr "leads to" s
  prepare_for_group s := "Proposition: " ++ s
  find_expert _ := { name := some "Expert", credentials := some "PhD", reliability := some (mkRat 9 10) }
  simulate_gut _ := toString ["Positive initial insight"]
  observe_phenomena _ := toString ["Observation data"]
  record_data obs := "data: " ++ obs ++ ", timestamp: now"
  build_arguments st premises _ := toString (premises.map (fun p => p ++ " supports " ++ st.statement))
  list_beliefs args := args
  gather_facts _ _ := toString ["Fact 1", "Fact 2"]
  apply_scenario _ _ := "results: Scenario applied"
  conduct_experiment _ _ := "data: Experiment results"
  is_outdated _ _ := false
  refresh_data _ := "data: Updated results"
  review_credentials e := e.reliability.getD 0
  consult_group _ _ := "[member: Peer, feedback: Agree]"
  cross_check_logic _ _ := { ok := true, detail := "valid: True" }
  test_consistency _ _ := { ok := true, detail := "consistent: True" }
  check_fit _ _ := { ok := true, detail := "coherent: True" }
  compare_facts _ _ := { ok := true, detail := "aligned: True" }
  verify_repeatability _ := { ok := true, detail := "reliable: True" }
  analyze_data _ := { new_patterns := false, new_sources := none,
                      detail := "patterns: [Pattern 1], new_patterns: False" }
  update_bayesian _ := mkRat 85 100
  evaluate_outcomes _ := { ok := true, detail := "useful: True" }
  evaluate_testimony _ := { ok := true, detail := "relevant: True" }
  gauge_consensus _ := { ok := true, detail := "broad: True" }
  conclude_rationally _ := { ok := true, detail := "valid: True" }
  accept_belief _ _ := { ok := true, detail := "coherent: True" }
  conclude_alignment _ _ := { ok := true, detail := "matched: True" }
  accept_empirically _ := { ok := true, detail := "supported: True" }
  refine_hypothesis st _ := "hypothesis: " ++ st.hypothesis ++ ", confidence: 0.85"
  deem_practical _ := { ok := true, detail := "effective: True" }
  trust_authority _ := { ok := true, detail := "credible: True" }
  consider_consensus _ := { ok := true, detail := "agreed: True" }

/-
Premises Identification loop (define_proposition lines 34-41).

Python iterates over self.premises with a list iterator whose cursor
advances before the loop body runs, while the body removes low-clarity
premises in place with list.remove.  The loop below reproduces that
cursor semantics exactly: at cursor c the element lst[c] is read, the
cursor advances, and a removal shrinks the list under the already-advanced
cursor.  Each iteration advances the cursor and never grows the list, so a
fuel of the initial list length always suffices.
-/

/-- One run of the for premise in self.premises loop with cursor c. -/
def premisesLoop (clarity : String → Rat) : Nat → Nat → List String → Scores →
    List String × Scores
  | 0, _, lst, scores => (lst, scores)
  | fuel + 1, c, lst, scores =>
    if h : c < lst.length then
      let premise := lst[c]
      if clarity premise > mkRat 7 10 then
        premisesLoop clarity fuel (c + 1) lst (dictInsert scores premise (mkRat 7 10))
      else
        premisesLoop clarity fuel (c + 1) (lst.erase premise) scores
    else (lst, scores)

/-- The whole Premises Identification filter: iterate from cursor 0 over
the freshly assigned self.premises, updating self.confidence_scores. -/
def premisesIdentification (clarity : String → Rat) (lst : List String)
    (scores : Scores) : List String × Scores :=
  premisesLoop clarity lst.length 0 lst scores

/-
define_proposition (source lines 24-86).

Checkpoint 1.6 (Claim Definition) evaluates self.frame_practical, a method
that is defined nowhere in the class, so after its pre-execution log line
the method always raises AttributeError; checkpoints 1.6-1.8 (framing and
actionability check, articulation, expert identification, source lines
69-86) are unreachable.  Their helper placeholders (is_actionable,
prepare_for_group, find_expert) are still part of builtinEvals.
-/
def define_proposition (E : Evaluators) (st : AgentState) (input_data : InputData) :
    Except Err DefineResult × AgentState × List Event :=
  let tr1 := [Event.log "Mind Quieting" "Initializing focus state."]
  if !pyTruthy input_data.context then
    (.error (.valueError "Context required for focus."), st, tr1)
  else
  let tr2 := tr1 ++ [.log "Mind Quieting" "Focus state achieved.",
                     .log "Premises Identification" "Listing self-evident truths."]
  let st1 := { st with premises := input_data.initial_premises.getD [] }
  let filtered := premisesIdentification E.evaluate_clarity st1.premises st1.confidence_scores
  let st2 := { st1 with premises := filtered.1, confidence_scores := filtered.2 }
  let tr3 := tr2 ++ [.log "Premises Identification" ("Premises: " ++ toString st2.premises),
                     .log "Hypothesis Formation" "Formulating hypothesis."]
  let phenomenon := input_data.phenomenon.getD ""
  if phenomenon = "" then
    (.error (.valueError "Phenomenon required for hypothesis."), st2, tr3)
  else
  let st3 := { st2 with hypothesis :=
    (phenomenon ++ " causes " ++ input_data.effect.getD "an outcome" ++ ".") }
  if !E.is_falsifiable st3.hypothesis then
    (.error (.valueError "Hypothesis must be falsifiable."), st3, tr3)
  else
  let tr4 := tr3 ++ [.log "Hypothesis Formation" ("Hypothesis: " ++ st3.hypothesis),
                     .log "Statement Identification" "Isolating key claim."]
  let st4 := { st3 with statement := st3.hypothesis }
  if !E.context_match st4.statement input_data.context then
    (.error (.valueError "Statement does not match context."), st4, tr4)
  else
  let tr5 := tr4 ++ [.log "Statement Identification" ("Statement: " ++ st4.statement),
                     .log "Belief Clarification" "Rephrasing for precision."]
  let st5 := { st4 with statement := E.clarify_statement st4.statement }
  if !E.is_assessable st5.statement then
    (.error (.valueError "Statement not assessable."), st5, tr5)
  else
  let tr6 := tr5 ++ [.log "Belief Clarification" ("Clarified: " ++ st5.statement),
                     .log "Claim Definition" "Framing for practical use."]
  (.error (.attributeError "frame_practical"), st5, tr6)

/-
gather_evidence (source lines 88-152).  No checkpoint in this stage can
raise, so the method is total; it returns self.evidence, which is the
evidence field of the returned state.  At 2.8 the experiment record is
appended before the staleness check; a refresh reassigns only the local
exp_data, which from then on is used only by the log line.
-/
def gather_evidence (E : Evaluators) (st : AgentState) (context : InputData) :
    AgentState × List Event :=
  let gut_insights := E.simulate_gut (context.initial_data.getD emptyListStr)
  let st1 := { st with evidence := st.evidence ++ [EvidenceRecord.mk "intuition" gut_insights] }
  let observations := E.observe_phenomena context.target
  let st2 := { st1 with evidence := st1.evidence ++ [EvidenceRecord.mk "observation" observations] }
  let recorded_data := E.record_data observations
  let st3 := { st2 with evidence := st2.evidence ++ [EvidenceRecord.mk "recorded" recorded_data] }
  let arguments := E.build_arguments st3 st3.premises recorded_data
  let st4 := { st3 with evidence := st3.evidence ++ [EvidenceRecord.mk "arguments" arguments] }
  let beliefs := E.list_beliefs arguments
  let st5 := { st4 with evidence := st4.evidence ++ [EvidenceRecord.mk "beliefs" beliefs] }
  let facts := E.gather_facts beliefs context.data_sources
  let st6 := { st5 with evidence := st5.evidence ++ [EvidenceRecord.mk "facts" facts] }
  let results := E.apply_scenario st6.statement facts
  let st7 := { st6 with evidence := st6.evidence ++ [EvidenceRecord.mk "scenario" results] }
  let exp_data := E.conduct_experiment st7.statement context.controls
  let st8 := { st7 with evidence := st7.evidence ++ [EvidenceRecord.mk "experiment" exp_data] }
  let exp_data2 :=
    if E.is_outdated exp_data context.time_sensitive then
      E.refresh_data context.data_sources
    else exp_data
  let st9 := { st8 with expert_data :=
    ({ st8.expert_data with reliability := some (E.review_credentials st8.expert_data) }) }
  let st10 := { st9 with evidence := st9.evidence ++ [EvidenceRecord.mk "expert" (expertStr st9.expert_data)] }
  let gf := E.consult_group st10.statement context.group
  let st11 := { st10 with group_feedback := gf,
                          evidence := st10.evidence ++ [EvidenceRecord.mk "group" gf] }
  (st11,
   [Event.enterGather,
    .log "Gut Tuning" "Simulating intuitive insights.",
    .log "Gut Tuning" ("Insights: " ++ gut_insights),
    .log "Phenomena Observation" "Collecting sensory data.",
    .log "Phenomena Observation" ("Observations: " ++ observations),
    .log "Experience Recording" "Documenting observations.",
    .log "Experience Recording" ("Recorded: " ++ recorded_data),
    .log "Argument Building" "Constructing logical arguments.",
    .log "Argument Building" ("Arguments: " ++ arguments),
    .log "Beliefs Listing" "Compiling related beliefs.",
    .log "Beliefs Listing" ("Beliefs: " ++ beliefs),
    .log "Facts Gathering" "Collecting real-world data.",
    .log "Facts Gathering" ("Facts: " ++ facts),
    .log "Scenario Application" "Testing in real-world scenario.",
    .log "Scenario Application" ("Results: " ++ results),
    .log "Experiment Conducting" "Running structured tests.",
    .log "Experiment Conducting" ("Experiment data: " ++ exp_data2),
    .log "Credentials Review" "Verifying expert reliability.",
    .log "Credentials Review" ("Expert reliability: " ++ optRat st9.expert_data.reliability),
    .log "Group Consultation" "Gathering group feedback.",
    .log "Group Consultation" ("Feedback: " ++ gf)])

/-
evaluate_proposition (source lines 154-220).  Checkpoint 3.6 (Data
Analysis) unconditionally overwrites confidence_scores["posterior"] and,
when the analysis reports new patterns, performs the single nested
gather_evidence call with a context dict holding only data_sources
(line 196); the returned evidence list is discarded, the state mutations
and log lines of the nested call are kept.
-/
def evaluate_proposition (E : Evaluators) (st : AgentState) (evidence : List EvidenceRecord) :
    Except Err EvaluationResult × AgentState × List Event :=
  let tr1 := [Event.enterEvaluate,
              Event.log "Logic Cross-Check" "Validating with logic."]
  let logic_check := E.cross_check_logic st.statement evidence
  if !logic_check.ok then
    (.error (.valueError "Logic check failed."), st, tr1)
  else
  let tr2 := tr1 ++ [.log "Logic Cross-Check" ("Logic valid: " ++ logic_check.detail),
                     .log "Consistency Testing" "Testing for logical consistency."]
  let consistency := E.test_consistency st.premises evidence
  if !consistency.ok then
    (.error (.valueError "Inconsistent reasoning."), st, tr2)
  else
  let tr3 := tr2 ++ [.log "Consistency Testing" ("Consistency: " ++ consistency.detail),
                     .log "Fit Checking" "Checking belief fit."]
  let fit := E.check_fit st.statement st.evidence
  if !fit.ok then
    (.error (.valueError "Belief fit failed."), st, tr3)
  else
  let tr4 := tr3 ++ [.log "Fit Checking" ("Fit: " ++ fit.detail),
                     .log "Statement Comparison" "Comparing to facts."]
  let fact_match := E.compare_facts st.statement evidence
  if !fact_match.ok then
    (.error (.valueError "Statement does not match facts."), st, tr4)
  else
  let tr5 := tr4 ++ [.log "Statement Comparison" ("Match: " ++ fact_match.detail),
                     .log "Repeatability Verification" "Verifying repeatability."]
  let repeatability := E.verify_repeatability evidence
  if !repeatability.ok then
    (.error (.valueError "Data not repeatable."), st, tr5)
  else
  let tr6 := tr5 ++ [.log "Repeatability Verification" ("Repeatability: " ++ repeatability.detail),
                     .log "Data Analysis" "Analyzing for patterns."]
  let analysis := E.analyze_data evidence
  let st6 := { st with confidence_scores :=
    (dictInsert st.confidence_scores "posterior" (E.update_bayesian analysis)) }
  let nested :=
    if analysis.new_patterns then
      gather_evidence E st6 { data_sources := analysis.new_sources }
    else (st6, [])
  let st7 := nested.1
  let tr7 := tr6 ++ nested.2 ++
    [Event.log "Data Analysis" ("Analysis: " ++ analysis.detail),
     Event.log "Outcomes Evaluation" "Evaluating practical value."]
  let outcomes := E.evaluate_outcomes analysis
  if !outcomes.ok then
    (.error (.valueError "Outcomes not practical."), st7, tr7)
  else
  let tr8 := tr7 ++ [.log "Outcomes Evaluation" ("Outcomes: " ++ outcomes.detail),
                     .log "Testimony Evaluation" "Assessing expert input."]
  let testimony := E.evaluate_testimony st7.expert_data
  if !testimony.ok then
    (.error (.valueError "Expert testimony not relevant."), st7, tr8)
  else
  let tr9 := tr8 ++ [.log "Testimony Evaluation" ("Testimony: " ++ testimony.detail),
                     .log "Agreement Gauging" "Measuring group consensus."]
  let consensus := E.gauge_consensus st7.group_feedback
  if !consensus.ok then
    (.error (.valueError "No broad consensus."), st7, tr9)
  else
  let tr10 := tr9 ++ [.log "Agreement Gauging" ("Consensus: " ++ consensus.detail)]
  (.ok { statement := st7.statement, confidence := st7.confidence_scores }, st7, tr10)

/-
conclude_proposition (source lines 222-279).  Checkpoints 4.1 and 4.2
raise on failure; 4.3, 4.4, 4.6, 4.7 and 4.8 return a truth: False dict
without raising; 4.5 (Hypothesis Refinement) only binds a local variable
and logs.  The method reads but never mutates the agent state, so only
the result and the event trace are returned.  schedule_monitoring (lines
396-397) runs only after every checkpoint has agreed; its invocation is
marked with a scheduleMonitoring event followed by the log line its body
emits.
-/
def conclude_proposition (E : Evaluators) (st : AgentState) (evaluation : EvaluationResult) :
    Except Err ConcludeResult × List Event :=
  let tr1 := [Event.log "Rational Conclusion" "Checking logical validity."]
  let rational := E.conclude_rationally evaluation
  if !rational.ok then
    (.error (.valueError "Rational conclusion failed."), tr1)
  else
  let tr2 := tr1 ++ [.log "Rational Conclusion" ("Rational: " ++ rational.detail),
                     .log "Belief Acceptance" "Checking belief integration."]
  let integration := E.accept_belief st.statement evaluation
  if !integration.ok then
    (.error (.valueError "Belief not integrated."), tr2)
  else
  let tr3 := tr2 ++ [.log "Belief Acceptance" ("Integration: " ++ integration.detail),
                     .log "Alignment Conclusion" "Verifying fact alignment."]
  let alignment := E.conclude_alignment st.statement evaluation
  if !alignment.ok then
    (.ok { truth := false, reason := some "No fact alignment" }, tr3)
  else
  let tr4 := tr3 ++ [.log "Alignment Conclusion" ("Alignment: " ++ alignment.detail),
                     .log "Empirical Acceptance" "Checking evidence support."]
  let empirical := E.accept_empirically evaluation
  if !empirical.ok then
    (.ok { truth := false, reason := some "No empirical support" }, tr4)
  else
  let tr5 := tr4 ++ [.log "Empirical Acceptance" ("Empirical: " ++ empirical.detail),
                     .log "Hypothesis Refinement" "Refining hypothesis.",
                     .log "Hypothesis Refinement" ("Hypothesis: " ++ E.refine_hypothesis st evaluation),
                     .log "Practical Deeming" "Checking practical value."]
  let practical := E.deem_practical evaluation
  if !practical.ok then
    (.ok { truth := false, reason := some "Not practical" }, tr5)
  else
  let tr6 := tr5 ++ [.log "Practical Deeming" ("Practical: " ++ practical.detail),
                     .log "Authority Trusting" "Verifying expert credibility."]
  let authority := E.trust_authority st.expert_data
  if !authority.ok then
    (.ok { truth := false, reason := some "Expert not credible" }, tr6)
  else
  let tr7 := tr6 ++ [.log "Authority Trusting" ("Authority: " ++ authority.detail),
                     .log "Consensus Consideration" "Finalizing with consensus."]
  let consensus := E.consider_consensus evaluation
  if !consensus.ok then
    (.ok { truth := false, reason := some "No consensus" }, tr7)
  else
  let tr8 := tr7 ++ [.log "Consensus Consideration" ("Consensus: " ++ consensus.detail),
                     Event.scheduleMonitoring,
                     .log "Monitoring" "Scheduled for future re-evaluation."]
  (.ok { truth := true, statement := some st.statement,
         confidence := some st.confidence_scores }, tr8)

/-- Number of gather_evidence invocations recorded in a trace. -/
def isEnterGather : Event → Bool
  | .enterGather => true
  | _ => false

/-- Number of evaluate_proposition invocations recorded in a trace. -/
def isEnterEvaluate : Event → Bool
  | .enterEvaluate => true
  | _ => false

/-- Monitoring-scheduler invocation marker. -/
def isSchedule : Event → Bool
  | .scheduleMonitoring => true
  | _ => false

/-- How many times gather_evidence was entered during a run. -/
def gatherCalls (tr : List Event) : Nat := tr.countP isEnterGather

/-- How many times evaluate_proposition was entered during a run. -/
def evaluateCalls (tr : List Event) : Nat := tr.countP isEnterEvaluate

/-- How many times schedule_monitoring was invoked during a run. -/
def schedCalls (tr : List Event) : Nat := tr.countP isSchedule

/-- The input_data dict of the __main__ driver (source lines 401-411). -/
def mainInput : InputData where
  context := some "Workplace motivation"
  initial_premises := some ["Recognition motivates", "Effort impacts output"]
  phenomenon := some "Employee recognition"
  effect := some "increased productivity"
  use_case := some "Team performance"
  domain := some "Organizational psychology"
  data_sources := some (toString ["Web", "X posts"])
  group := some (toString ["Colleagues", "Experts"])
  time_sensitive := some false

/-- An arbitrary evaluation argument for calling conclude directly. -/
def ev0 : EvaluationResult := { statement := "", confidence := [] }

/-- Evaluator set scoring every premise 0.5 (below the 0.7 clarity bar). -/
def lowClarityEvals : Evaluators :=
  { builtinEvals with evaluate_clarity := fun _ => mkRat 5 10 }

/-- Evaluator set whose experiment checkpoint reports stale data. -/
def staleEvals : Evaluators :=
  { builtinEvals with
      is_outdated := fun _ _ => true
      conduct_experiment := fun _ _ => "stale experiment results"
      refresh_data := fun _ => "refreshed experiment results" }

/-- Evaluator set whose logic cross-check reports invalid. -/
def logicFailEvals : Evaluators :=
  { builtinEvals with cross_check_logic := fun _ _ => { ok := false, detail := "valid: False" } }

/-- Evaluator set whose repeatability verification reports unreliable. -/
def repFailEvals : Evaluators :=
  { builtinEvals with verify_repeatability := fun _ => { ok := false, detail := "reliable: False" } }

/-- Evaluator set whose fact-alignment conclusion reports no match. -/
def alignFailEvals : Evaluators :=
  { builtinEvals with conclude_alignment := fun _ _ => { ok := false, detail := "matched: False" } }

/-- A gather_evidence run records exactly one gather entry in its trace. -/
lemma gather_countP_enterGather (E : Evaluators) (st : AgentState) (ctx : InputData) :
    ((gather_evidence E st ctx).2).countP isEnterGather = 1 := by
  simp [gather_evidence, isEnterGather, List.countP_cons, List.countP_nil]

/-- A gather_evidence run records no evaluate entry in its trace:
gather_evidence contains no call to evaluate_proposition. -/
lemma gather_countP_enterEvaluate (E : Evaluators) (st : AgentState) (ctx : InputData) :
    ((gather_evidence E st ctx).2).countP isEnterEvaluate = 0 := by
  simp [gather_evidence, isEnterEvaluate, List.countP_cons, List.countP_nil]

/-- Claim C1: the claim states that every input with non-empty context and
phenomenon that passes the earlier Definition checkpoints completes all 8
checkpoints and yields a statement, premises dict.  On the code this is
false: checkpoint 1.6 looks up self.frame_practical, which is defined
nowhere in the class, so define_proposition raises AttributeError there —
shown here on the input of the module's own __main__ driver, which does
reach checkpoint 1.6 (its pre-execution log event is in the trace, so
checkpoints 1.1-1.5 all passed). -/
theorem C1_define_never_completes :
    (define_proposition builtinEvals initState mainInput).1 =
      .error (.attributeError "frame_practical") ∧
    Event.log "Claim Definition" "Framing for practical use." ∈
      (define_proposition builtinEvals initState mainInput).2.2 := by decide

/-- Claim C2: the claim states that after the premise filter, every
premise with clarity score at most 0.7 is absent from the premises and
from the confidence scores.  On the code this is false: the filter removes
from the list while iterating it, so the element after each removed
premise is skipped.  With premises p, q both scoring 0.5, q survives in
the premises list with no confidence score; under define_proposition on
the __main__ input with the same low-clarity evaluator, the second premise
likewise survives unscored. -/
theorem C2_premise_filter_skips_after_removal :
    premisesIdentification lowClarityEvals.evaluate_clarity ["p", "q"] [] = (["q"], []) ∧
    lowClarityEvals.evaluate_clarity "q" ≤ mkRat 7 10 ∧
    (define_proposition lowClarityEvals initState mainInput).2.1.premises =
      ["Effort impacts output"] ∧
    (define_proposition lowClarityEvals initState mainInput).2.1.confidence_scores = [] := by
  decide

/-- Claim C3: the claim states that when the experiment evaluator reports
the collected data as stale, the appended experiment record contains the
refreshed data.  On the code this is false: the record is appended at line
135 before the staleness check at line 136, and the refreshed data is
assigned only to the local variable, which is then used only by the log
line — so the ledger keeps the stale data while the log reports the
refreshed data. -/
theorem C3_stale_data_appended :
    EvidenceRecord.mk "experiment" "stale experiment results" ∈
      (gather_evidence staleEvals initState mainInput).1.evidence ∧
    EvidenceRecord.mk "experiment" "refreshed experiment results" ∉
      (gather_evidence staleEvals initState mainInput).1.evidence ∧
    Event.log "Experiment Conducting" ("Experiment data: " ++ "refreshed experiment results") ∈
      (gather_evidence staleEvals initState mainInput).2 := by decide

/-- Claim C4 (amended): every checkpoint that executes first emits an
audit event with its name unconditionally, before its gate is applied; but
the event carrying the evaluator's result detail is emitted only when the
checkpoint passes — a Fail-mode checkpoint whose condition is false aborts
the stage before its result-detail event is logged.  Shown at the logic
cross-check of evaluate_proposition: the pre-execution event is always the
second trace event; on failure the trace ends right there and the error is
returned; on success the result-detail event follows. -/
theorem C4_audit_events (E : Evaluators) (st : AgentState) (ev : List EvidenceRecord) :
    ((E.cross_check_logic st.statement ev).ok = false →
      (evaluate_proposition E st ev).2.2 =
        [Event.enterEvaluate, Event.log "Logic Cross-Check" "Validating with logic."] ∧
      (evaluate_proposition E st ev).1 = .error (.valueError "Logic check failed.")) ∧
    ((E.cross_check_logic st.statement ev).ok = true →
      (evaluate_proposition E st ev).2.2.take 4 =
        [Event.enterEvaluate,
         Event.log "Logic Cross-Check" "Validating with logic.",
         Event.log "Logic Cross-Check" ("Logic valid: " ++ (E.cross_check_logic st.statement ev).detail),
         Event.log "Consistency Testing" "Testing for logical consistency."]) ∧
    (evaluate_proposition E st ev).2.2.take 2 =
      [Event.enterEvaluate, Event.log "Logic Cross-Check" "Validating with logic."] := by
  refine ⟨fun h1 => ?_, fun h1 => ?_, ?_⟩
  · simp [evaluate_proposition, h1]
  · simp [evaluate_proposition, h1,
      apply_ite (fun p : Except Err EvaluationResult × AgentState × List Event => p.2.2),
      apply_ite (List.take 4), ite_self]
  · cases h1 : (E.cross_check_logic st.statement ev).ok <;>
    simp [evaluate_proposition, h1,
      apply_ite (fun p : Except Err EvaluationResult × AgentState × List Event => p.2.2),
      apply_ite (List.take 2), ite_self]

/-- Claim C4, failing instance: with a logic cross-check reporting
invalid, the checkpoint executes (the run returns its failure) but the
audit event carrying its result detail is never emitted — the trace holds
only the pre-execution event, refuting the claim that the result-detail
event is emitted regardless of outcome. -/
theorem C4_counterexample :
    (evaluate_proposition logicFailEvals initState []).1 =
      .error (.valueError "Logic check failed.") ∧
    Event.log "Logic Cross-Check" ("Logic valid: " ++ "valid: False") ∉
      (evaluate_proposition logicFailEvals initState []).2.2 ∧
    (evaluate_proposition logicFailEvals initState []).2.2 =
      [Event.enterEvaluate, Event.log "Logic Cross-Check" "Validating with logic."] := by
  decide

/-- Claim C4, witness: the amended theorem applied to the concrete failing
logic evaluator. -/
theorem C4_audit_events_witness :
    (evaluate_proposition logicFailEvals initState []).2.2 =
      [Event.enterEvaluate, Event.log "Logic Cross-Check" "Validating with logic."] ∧
    (evaluate_proposition logicFailEvals initState []).1 =
      .error (.valueError "Logic check failed.") :=
  (C4_audit_events logicFailEvals initState []).1 (by decide)

/-- Claim C5: the pattern-analysis checkpoint of evaluate_proposition
triggers at most one nested gather_evidence call per evaluate invocation —
whatever the analysis evaluator reports — and gather_evidence never
re-enters evaluate_proposition, so the mutual recursion is bounded to
depth one. -/
theorem C5_gather_reentry_bounded (E : Evaluators) (st : AgentState) (ev : List EvidenceRecord) :
    gatherCalls (evaluate_proposition E st ev).2.2 ≤ 1 ∧
    (∀ st2 : AgentState, ∀ ctx : InputData, evaluateCalls (gather_evidence E st2 ctx).2 = 0) := by
  constructor
  · cases h1 : (E.cross_check_logic st.statement ev).ok <;>
    cases h2 : (E.test_consistency st.premises ev).ok <;>
    cases h3 : (E.check_fit st.statement st.evidence).ok <;>
    cases h4 : (E.compare_facts st.statement ev).ok <;>
    cases h5 : (E.verify_repeatability ev).ok <;>
    cases h6 : (E.analyze_data ev).new_patterns <;>
    simp [evaluate_proposition, h1, h2, h3, h4, h5, h6, gatherCalls, isEnterGather,
      List.countP_cons, List.countP_nil, List.countP_append, gather_countP_enterGather,
      apply_ite (List.countP isEnterGather),
      apply_ite (fun p : Except Err EvaluationResult × AgentState × List Event => p.2.2),
      ite_self]
  · intro st2 ctx
    simpa [evaluateCalls] using gather_countP_enterEvaluate E st2 ctx

/-- Claim C6: once the two Fail-mode checkpoints of conclude_proposition
have agreed, the first SoftFail checkpoint (fact alignment, empirical
support, practical effectiveness, authority credibility or consensus
agreement) that disagrees makes conclude return truth: false with the
matching reason immediately: the result is an ok value, not an error, the
trace ends at that checkpoint's pre-execution event (so no later
checkpoint is invoked), and the monitoring scheduler is never invoked. -/
theorem C6_soft_fail_returns_immediately (E : Evaluators) (st : AgentState)
    (ev : EvaluationResult)
    (hr : (E.conclude_rationally ev).ok = true)
    (hi : (E.accept_belief st.statement ev).ok = true) :
    ((E.conclude_alignment st.statement ev).ok = false →
      conclude_proposition E st ev =
        (.ok { truth := false, reason := some "No fact alignment" },
         [Event.log "Rational Conclusion" "Checking logical validity.",
          Event.log "Rational Conclusion" ("Rational: " ++ (E.conclude_rationally ev).detail),
          Event.log "Belief Acceptance" "Checking belief integration.",
          Event.log "Belief Acceptance" ("Integration: " ++ (E.accept_belief st.statement ev).detail),
          Event.log "Alignment Conclusion" "Verifying fact alignment."]) ∧
      schedCalls (conclude_proposition E st ev).2 = 0) ∧
    ((E.conclude_alignment st.statement ev).ok = true →
     (E.accept_empirically ev).ok = false →
      conclude_proposition E st ev =
        (.ok { truth := false, reason := some "No empirical support" },
         [Event.log "Rational Conclusion" "Checking logical validity.",
          Event.log "Rational Conclusion" ("Rational: " ++ (E.conclude_rationally ev).detail),
          Event.log "Belief Acceptance" "Checking belief integration.",
          Event.log "Belief Acceptance" ("Integration: " ++ (E.accept_belief st.statement ev).detail),
          Event.log "Alignment Conclusion" "Verifying fact alignment.",
          Event.log "Alignment Conclusion" ("Alignment: " ++ (E.conclude_alignment st.statement ev).detail),
          Event.log "Empirical Acceptance" "Checking evidence support."]) ∧
      schedCalls (conclude_proposition E st ev).2 = 0) ∧
    ((E.conclude_alignment st.statement ev).ok = true →
     (E.accept_empirically ev).ok = true →
     (E.deem_practical ev).ok = false →
      conclude_proposition E st ev =
        (.ok { truth := false, reason := some "Not practical" },
         [Event.log "Rational Conclusion" "Checking logical validity.",
          Event.log "Rational Conclusion" ("Rational: " ++ (E.conclude_rationally ev).detail),
          Event.log "Belief Acceptance" "Checking belief integration.",
          Event.log "Belief Acceptance" ("Integration: " ++ (E.accept_belief st.statement ev).detail),
          Event.log "Alignment Conclusion" "Verifying fact alignment.",
          Event.log "Alignment Conclusion" ("Alignment: " ++ (E.conclude_alignment st.statement ev).detail),
          Event.log "Empirical Acceptance" "Checking evidence support.",
          Event.log "Empirical Acceptance" ("Empirical: " ++ (E.accept_empirically ev).detail),
          Event.log "Hypothesis Refinement" "Refining hypothesis.",
          Event.log "Hypothesis Refinement" ("Hypothesis: " ++ E.refine_hypothesis st ev),
          Event.log "Practical Deeming" "Checking practical value."]) ∧
      schedCalls (conclude_proposition E st ev).2 = 0) ∧
    ((E.conclude_alignment st.statement ev).ok = true →
     (E.accept_empirically ev).ok = true →
     (E.deem_practical ev).ok = true →
     (E.trust_authority st.expert_data).ok = false →
      conclude_proposition E st ev =
        (.ok { truth := false, reason := some "Expert not credible" },
         [Event.log "Rational Conclusion" "Checking logical validity.",
          Event.log "Rational Conclusion" ("Rational: " ++ (E.conclude_rationally ev).detail),
          Event.log "Belief Acceptance" "Checking belief integration.",
          Event.log "Belief Acceptance" ("Integration: " ++ (E.accept_belief st.statement ev).detail),
          Event.log "Alignment Conclusion" "Verifying fact alignment.",
          Event.log "Alignment Conclusion" ("Alignment: " ++ (E.conclude_alignment st.statement ev).detail),
          Event.log "Empirical Acceptance" "Checking evidence support.",
          Event.log "Empirical Acceptance" ("Empirical: " ++ (E.accept_empirically ev).detail),
          Event.log "Hypothesis Refinement" "Refining hypothesis.",
          Event.log "Hypothesis Refinement" ("Hypothesis: " ++ E.refine_hypothesis st ev),
          Event.log "Practical Deeming" "Checking practical value.",
          Event.log "Practical Deeming" ("Practical: " ++ (E.deem_practical ev).detail),
          Event.log "Authority Trusting" "Verifying expert credibility."]) ∧
      schedCalls (conclude_proposition E st ev).2 = 0) ∧
    ((E.conclude_alignment st.statement ev).ok = true →
     (E.accept_empirically ev).ok = true →
     (E.deem_practical ev).ok = true →
     (E.trust_authority st.expert_data).ok = true →
     (E.consider_consensus ev).ok = false →
      conclude_proposition E st ev =
        (.ok { truth := false, reason := some "No consensus" },
         [Event.log "Rational Conclusion" "Checking logical validity.",
          Event.log "Rational Conclusion" ("Rational: " ++ (E.conclude_rationally ev).detail),
          Event.log "Belief Acceptance" "Checking belief integration.",
          Event.log "Belief Acceptance" ("Integration: " ++ (E.accept_belief st.statement ev).detail),
          Event.log "Alignment Conclusion" "Verifying fact alignment.",
          Event.log "Alignment Conclusion" ("Alignment: " ++ (E.conclude_alignment st.statement ev).detail),
          Event.log "Empirical Acceptance" "Checking evidence support.",
          Event.log "Empirical Acceptance" ("Empirical: " ++ (E.accept_empirically ev).detail),
          Event.log "Hypothesis Refinement" "Refining hypothesis.",
          Event.log "Hypothesis Refinement" ("Hypothesis: " ++ E.refine_hypothesis st ev),
          Event.log "Practical Deeming" "Checking practical value.",
          Event.log "Practical Deeming" ("Practical: " ++ (E.deem_practical ev).detail),
          Event.log "Authority Trusting" "Verifying expert credibility.",
          Event.log "Authority Trusting" ("Authority: " ++ (E.trust_authority st.expert_data).detail),
          Event.log "Consensus Consideration" "Finalizing with consensus."]) ∧
      schedCalls (conclude_proposition E st ev).2 = 0) := by
  refine ⟨fun h3 => ?_, fun h3 h4 => ?_, fun h3 h4 h5 => ?_,
          fun h3 h4 h5 h6 => ?_, fun h3 h4 h5 h6 h7 => ?_⟩ <;>
  simp_all [conclude_proposition, schedCalls, isSchedule,
    List.countP_cons, List.countP_nil]

/-- Claim C6, witness: the theorem applied to the concrete evaluator set
whose fact-alignment conclusion disagrees. -/
theorem C6_soft_fail_witness :
    conclude_proposition alignFailEvals initState ev0 =
      (.ok { truth := false, reason := some "No fact alignment" },
       [Event.log "Rational Conclusion" "Checking logical validity.",
        Event.log "Rational Conclusion" ("Rational: " ++ (alignFailEvals.conclude_rationally ev0).detail),
        Event.log "Belief Acceptance" "Checking belief integration.",
        Event.log "Belief Acceptance" ("Integration: " ++ (alignFailEvals.accept_belief initState.statement ev0).detail),
        Event.log "Alignment Conclusion" "Verifying fact alignment."]) ∧
    schedCalls (conclude_proposition alignFailEvals initState ev0).2 = 0 :=
  (C6_soft_fail_returns_immediately alignFailEvals initState ev0
    (by decide) (by decide)).1 (by decide)

/-- Claim C7: when every conclusion checkpoint agrees,
conclude_proposition invokes the monitoring scheduler exactly once and
returns truth: true together with the statement and the confidence
scores of the agent state. -/
theorem C7_all_agree_schedules_once (E : Evaluators) (st : AgentState)
    (ev : EvaluationResult)
    (h1 : (E.conclude_rationally ev).ok = true)
    (h2 : (E.accept_belief st.statement ev).ok = true)
    (h3 : (E.conclude_alignment st.statement ev).ok = true)
    (h4 : (E.accept_empirically ev).ok = true)
    (h5 : (E.deem_practical ev).ok = true)
    (h6 : (E.trust_authority st.expert_data).ok = true)
    (h7 : (E.consider_consensus ev).ok = true) :
    (conclude_proposition E st ev).1 =
      .ok { truth := true, statement := some st.statement,
            confidence := some st.confidence_scores } ∧
    schedCalls (conclude_proposition E st ev).2 = 1 := by
  simp [conclude_proposition, h1, h2, h3, h4, h5, h6, h7, schedCalls, isSchedule,
    List.countP_cons, List.countP_nil]

/-- Claim C7, witness: the theorem applied to the built-in evaluators,
whose conclusion checkpoints all agree. -/
theorem C7_all_agree_witness :
    (conclude_proposition builtinEvals initState ev0).1 =
      .ok { truth := true, statement := some initState.statement,
            confidence := some initState.confidence_scores } ∧
    schedCalls (conclude_proposition builtinEvals initState ev0).2 = 1 :=
  C7_all_agree_schedules_once builtinEvals initState ev0
    (by decide) (by decide) (by decide) (by decide) (by decide) (by decide) (by decide)

/-- Claim C8 (amended): a Fail-mode checkpoint whose evaluator reports
ok equal to false terminates its stage immediately — no subsequent
checkpoint is invoked (the trace ends at the failing checkpoint's
pre-execution event) and no nested gather occurs — and the failure
propagates to the caller as an uncaught ValueError carrying a fixed
checkpoint-specific message; that message, however, is not the failing
checkpoint's name.  Shown at the repeatability checkpoint of
evaluate_proposition. -/
theorem C8_fail_mode_terminates_stage (E : Evaluators) (st : AgentState)
    (ev : List EvidenceRecord)
    (h1 : (E.cross_check_logic st.statement ev).ok = true)
    (h2 : (E.test_consistency st.premises ev).ok = true)
    (h3 : (E.check_fit st.statement st.evidence).ok = true)
    (h4 : (E.compare_facts st.statement ev).ok = true)
    (h5 : (E.verify_repeatability ev).ok = false) :
    (evaluate_proposition E st ev).1 = .error (.valueError "Data not repeatable.") ∧
    (evaluate_proposition E st ev).2.2 =
      [Event.enterEvaluate,
       Event.log "Logic Cross-Check" "Validating with logic.",
       Event.log "Logic Cross-Check" ("Logic valid: " ++ (E.cross_check_logic st.statement ev).detail),
       Event.log "Consistency Testing" "Testing for logical consistency.",
       Event.log "Consistency Testing" ("Consistency: " ++ (E.test_consistency st.premises ev).detail),
       Event.log "Fit Checking" "Checking belief fit.",
       Event.log "Fit Checking" ("Fit: " ++ (E.check_fit st.statement st.evidence).detail),
       Event.log "Statement Comparison" "Comparing to facts.",
       Event.log "Statement Comparison" ("Match: " ++ (E.compare_facts st.statement ev).detail),
       Event.log "Repeatability Verification" "Verifying repeatability."] ∧
    gatherCalls (evaluate_proposition E st ev).2.2 = 0 := by
  simp [evaluate_proposition, h1, h2, h3, h4, h5, gatherCalls, isEnterGather,
    List.countP_cons, List.countP_nil]

/-- Claim C8, failing instance: with a repeatability evaluator reporting
unreliable, evaluate_proposition stops immediately with a ValueError, but
the error message does not contain the failing checkpoint's name
(Repeatability Verification) — refuting the claim that the propagated
error carries the checkpoint's name.  No subsequent checkpoint runs:
the next checkpoint's pre-execution event is absent from the trace. -/
theorem C8_counterexample :
    (evaluate_proposition repFailEvals initState []).1 =
      .error (.valueError "Data not repeatable.") ∧
    pyInStr "Repeatability Verification" "Data not repeatable." = false ∧
    Event.log "Data Analysis" "Analyzing for patterns." ∉
      (evaluate_proposition repFailEvals initState []).2.2 := by
  decide

/-- Claim C8, witness: the amended theorem applied to the concrete
failing repeatability evaluator. -/
theorem C8_fail_mode_witness :
    (evaluate_proposition repFailEvals initState []).1 =
      .error (.valueError "Data not repeatable.") ∧
    gatherCalls (evaluate_proposition repFailEvals initState []).2.2 = 0 := by
  have h := C8_fail_mode_terminates_stage repFailEvals initState []
    (by decide) (by decide) (by decide) (by decide) (by decide)
  exact ⟨h.1, h.2.2⟩

/-- Claim C9: no public operation checks a stage label — the agent state
has no such field and no operation inspects prior progress — so every
operation can run on a freshly constructed agent without a wrong-state
error.  In particular conclude called first with the built-in evaluators
returns truth: true with the empty statement and the empty confidence map
(scheduling monitoring once); evaluate called first succeeds with only the
posterior score; gather called first appends its 10 records; and define
fails only with the stage-independent AttributeError of the missing
frame_practical method, not with any state check. -/
theorem C9_no_stage_ordering_enforced :
    (∀ ev : EvaluationResult,
      (conclude_proposition builtinEvals initState ev).1 =
        .ok { truth := true, statement := some "", confidence := some [] } ∧
      schedCalls (conclude_proposition builtinEvals initState ev).2 = 1) ∧
    (∀ evd : List EvidenceRecord,
      (evaluate_proposition builtinEvals initState evd).1 =
        .ok { statement := "", confidence := [("posterior", mkRat 85 100)] }) ∧
    (∀ ctx : InputData,
      ((gather_evidence builtinEvals initState ctx).1.evidence).length = 10) ∧
    (define_proposition builtinEvals initState mainInput).1 =
      .error (.attributeError "frame_practical") := by
  refine ⟨fun ev => ?_, fun evd => ?_, fun ctx => ?_, ?_⟩
  · simp [conclude_proposition, builtinEvals, initState, schedCalls, isSchedule,
      List.countP_cons, List.countP_nil]
  · simp [evaluate_proposition, builtinEvals, initState, dictInsert]
  · simp [gather_evidence, initState]
  · decide

/-- The hypothesis built by define_proposition always contains the word
causes, so the built-in falsifiability check accepts it. -/
lemma causes_infix (p e : String) :
    pyInStr "causes" (p ++ " causes " ++ e ++ ".") = true := by
  simp only [pyInStr, decide_eq_true_eq]
  refine ⟨p.data ++ [' '], [' '] ++ e.data ++ ['.'], ?_⟩
  have h1 : (p ++ " causes " ++ e ++ ".").data =
      p.data ++ " causes ".data ++ e.data ++ ".".data := by
    simp [String.data_append]
  have h2 : " causes ".data = [' '] ++ "causes".data ++ [' '] := by decide
  have h3 : ".".data = ['.'] := by decide
  rw [h1, h2, h3]
  simp [List.append_assoc]

/-- Claim C10: for every input with a non-empty phenomenon, the hypothesis
is built as phenomenon causes effect with a trailing period, so it always
contains causes, the built-in falsifiability check returns true, and
define_proposition can never fail with the falsifiability ValueError —
that branch is unreachable. -/
theorem C10_falsifiability_branch_unreachable (inp : InputData) (st : AgentState)
    (h : inp.phenomenon.getD "" ≠ "") :
    builtinEvals.is_falsifiable
        (inp.phenomenon.getD "" ++ " causes " ++ inp.effect.getD "an outcome" ++ ".") = true ∧
    (define_proposition builtinEvals st inp).1 ≠
      .error (.valueError "Hypothesis must be falsifiable.") := by
  constructor
  · simp only [builtinEvals]
    exact causes_infix _ _
  · cases hc : pyTruthy inp.context with
    | false => simp [define_proposition, hc]
    | true =>
      simp [define_proposition, hc, h, causes_infix, builtinEvals]
      split <;> simp

/-- Claim C10, witness: the theorem applied to the input of the __main__
driver, whose phenomenon is non-empty. -/
theorem C10_falsifiability_witness :
    builtinEvals.is_falsifiable
        (mainInput.phenomenon.getD "" ++ " causes " ++
          mainInput.effect.getD "an outcome" ++ ".") = true ∧
    (define_proposition builtinEvals initState mainInput).1 ≠
      .error (.valueError "Hypothesis must be falsifiable.") :=
  C10_falsifiability_branch_unreachable mainInput initState (by decide)

end StardogPOC
